import Mathlib

/-!
Verification of the SpinEscape simulation core (src/www/js/game.js).

The development shallowly embeds the game-logic classes of game.js:
Player (rotor geometry and rotation), Projectile / ProjectilePool
(object-pool lifecycle), GameEngine.checkCollisions (per-tick collision
scan), GameEngine.handleDodge / addScore / updateComboMultiplier
(scoring), GameEngine.gameLoop (deltaTime clamp) and
Physics.getNearbyObjects (spatial grid query).

JavaScript numbers are modelled by exact arithmetic: ℚ for the purely
rational computations (scores, timestamps, the deltaTime clamp) and ℝ
for the angular geometry, which involves π.  Array-valued fields are
modelled by lists; object identity of pooled projectiles is modelled by
natural-number instance ids.
-/

namespace SpinEscape

/-! ## Difficulty and scoring (GameEngine.addScore, updateComboMultiplier,
handleDodge; game.js lines 2425-2460, 2529-2562, 2601-2605) -/

/-- The difficulty enum: 'easy', 'medium', 'hard', 'extreme'. -/
inductive Difficulty where
  | easy
  | medium
  | hard
  | extreme
deriving DecidableEq, Repr

/-- The difficultyBonuses table of GameEngine.addScore / handleDodge:
easy 1.0, medium 1.1, hard 1.2, extreme 1.3. -/
def difficultyBonus : Difficulty → ℚ
  | .easy => 1
  | .medium => 11/10
  | .hard => 12/10
  | .extreme => 13/10

/-- The scoring-relevant session fields of GameEngine. -/
structure ScoreState where
  score : ℤ
  combo : ℕ
  comboMultiplier : ℕ
  sessionBest : ℤ
  bestComboThisGame : ℕ
  difficulty : Difficulty
deriving DecidableEq, Repr

/-- GameEngine.updateComboMultiplier:
`this.comboMultiplier = 1 + Math.floor(this.combo / 10)` capped by
`Math.min(this.comboMultiplier, 5)`.  Nat division is floor division. -/
def updateComboMultiplier (s : ScoreState) : ScoreState :=
  { s with comboMultiplier := min (1 + s.combo / 10) 5 }

/-- GameEngine.addScore(basePoints): computes
`points = Math.floor(basePoints)`,
`finalPoints = Math.floor(points * comboMultiplier * difficultyBonus)`,
adds finalPoints to score, and updates sessionBest and
bestComboThisGame. -/
def addScore (s : ScoreState) (basePoints : ℚ) : ScoreState :=
  let bonus := difficultyBonus s.difficulty
  let points : ℤ := ⌊basePoints⌋
  let finalPoints : ℤ := ⌊(points : ℚ) * (s.comboMultiplier : ℚ) * bonus⌋
  let newScore := s.score + finalPoints
  { s with
    score := newScore
    sessionBest := max newScore s.sessionBest
    bestComboThisGame := max s.combo s.bestComboThisGame }

/-- The score-state effect of GameEngine.handleDodge(projectile).
`pDodged` is the projectile's `dodged` flag on entry: when it is set the
handler returns immediately (double-processing guard); otherwise the
combo is incremented, the multiplier recomputed, and `addScore(10)`
called (basePoints = 10).  The projectile-flag mutation, particle and
floating-score effects and the pool release do not touch these fields. -/
def handleDodgeScore (s : ScoreState) (pDodged : Bool) : ScoreState :=
  if pDodged then s
  else addScore (updateComboMultiplier { s with combo := s.combo + 1 }) 10

/-- The score-state effect of GameEngine.handleCollision:
`this.combo = 0; this.comboMultiplier = 1`. -/
def handleCollisionScore (s : ScoreState) : ScoreState :=
  { s with combo := 0, comboMultiplier := 1 }

/-- The session score state at the start of a game on a given
difficulty: score 0, combo 0, multiplier 1. -/
def initialScoreState (d : Difficulty) : ScoreState :=
  { score := 0, combo := 0, comboMultiplier := 1, sessionBest := 0
    bestComboThisGame := 0, difficulty := d }

/-! ## The projectile pool (ProjectilePool, game.js lines 1070-1125)

Pooled projectile instances are identified by natural-number ids; a
`PoolState` holds the ids currently in `this.pool` (the free list) and
`this.active`, the number of instances ever created, and each
instance's `active` flag.  The JS `pool` array is used as a stack:
`push` appends at the end and `pop` removes the last element; we keep
the top of that stack at the head of the `free` list, which preserves
the exact acquire/release order.  `active.push` appends, and
`splice(indexOf(p), 1)` removes the first occurrence, i.e. `List.erase`.
-/

/-- Pool state: free list (top of the JS pool stack first), active list
(in JS array order), number of instances created so far (ids are
`0, ..., created - 1`), and each instance's `active` flag.  A freshly
constructed Projectile calls `reset`, which sets `active = true`. -/
structure PoolState where
  free : List ℕ
  act : List ℕ
  created : ℕ
  flag : ℕ → Bool

/-- ProjectilePool.constructor + initialize with `initialSize = n`:
pre-creates n projectiles in the pool (each constructor runs `reset`,
leaving `active = true`). -/
def initPool (n : ℕ) : PoolState :=
  { free := List.range n, act := [], created := n, flag := fun _ => true }

/-- ProjectilePool.acquire: pops a projectile from the pool if one is
free, otherwise creates a new instance; `reset` sets its `active` flag
and it is pushed onto the active list.  Returns the new state and the
acquired id. -/
def acquire (st : PoolState) : PoolState × ℕ :=
  match st.free with
  | id :: rest =>
      ({ st with
          free := rest
          act := st.act ++ [id]
          flag := fun j => if j = id then true else st.flag j }, id)
  | [] =>
      ({ st with
          act := st.act ++ [st.created]
          created := st.created + 1
          flag := fun j => if j = st.created then true else st.flag j },
       st.created)

/-- ProjectilePool.release(projectile): if the instance is in the
active list (`indexOf !== -1`) it is removed from it (first
occurrence), its `active` flag is cleared and it is pushed back onto
the pool; otherwise the call is a no-op. -/
def release (st : PoolState) (i : ℕ) : PoolState :=
  if i ∈ st.act then
    { st with
        free := i :: st.free
        act := st.act.erase i
        flag := fun j => if j = i then false else st.flag j }
  else st

/-- Pool well-formedness: every id in either collection was created,
every created id is in exactly one of the two collections, and neither
collection repeats an id. -/
def PoolWF (st : PoolState) : Prop :=
  (∀ i ∈ st.free, i < st.created) ∧
  (∀ i ∈ st.act, i < st.created) ∧
  (∀ i < st.created, (i ∈ st.free ∧ i ∉ st.act) ∨ (i ∉ st.free ∧ i ∈ st.act)) ∧
  st.free.Nodup ∧ st.act.Nodup

instance (st : PoolState) : Decidable (PoolWF st) := by
  unfold PoolWF; infer_instance

/-! ## The deltaTime clamp (GameEngine.gameLoop, game.js lines 2076-2098) -/

/-- The deltaTime computation at the top of GameEngine.gameLoop:
`deltaTime = (currentTime - lastTime) / 1000` followed by the clamp
`deltaTime = Math.min(deltaTime, 0.033)`.  The clamped value is the one
later passed to `this.update(this.deltaTime)`; nothing between the
clamp and that call modifies it.  Times are in milliseconds. -/
def gameLoopDeltaTime (currentTime lastTime : ℚ) : ℚ :=
  min ((currentTime - lastTime) / 1000) (33/1000)

/-! ## Rotor gap geometry (Player, game.js lines 789-889)

Angles are exact reals.  The JS while-loop angle normalizations are
embedded by their closed forms; each closed form is characterized below
by the properties that uniquely determine the loop's result (a
representative of the same residue class mod 2π lying in the loop's
exit range), so the embedding is faithful. -/

noncomputable section

open Real

/-- Player.constructor: `gapCount = 4`. -/
def gapCount : ℕ := 4

/-- Player.constructor: `gapSize = Math.PI / 4`. -/
def gapSize : ℝ := π / 4

/-- Player.constructor: the gap list; gap i is
`[2π/gapCount * i, 2π/gapCount * i + gapSize]`. -/
def gaps : List (ℝ × ℝ) :=
  (List.range gapCount).map fun i =>
    (2 * π / (gapCount : ℝ) * (i : ℝ), 2 * π / (gapCount : ℝ) * (i : ℝ) + gapSize)

/-- Closed form of the normalization loops in Player.isSolidAtAngle
(`while (a < 0) a += 2π; while (a >= 2π) a -= 2π`): the representative
of x mod 2π in [0, 2π). -/
def normAngle (x : ℝ) : ℝ := x - 2 * π * ⌊x / (2 * π)⌋

/-- The gap-membership test in the loop body of Player.isSolidAtAngle:
when `gapEnd > 2π` the wrap-around branch tests
`rel >= gapStart || rel <= gapEnd - 2π`, otherwise the plain branch
tests `gapStart <= rel && rel < gapEnd`. -/
def inGapInterval (rel : ℝ) (g : ℝ × ℝ) : Prop :=
  (g.2 > 2 * π ∧ (g.1 ≤ rel ∨ rel ≤ g.2 - 2 * π)) ∨
  (¬ g.2 > 2 * π ∧ (g.1 ≤ rel ∧ rel < g.2))

/-- Player.isSolidAtAngle(worldAngle): normalizes
`worldAngle - this.angle` to [0, 2π) and returns false (gap) as soon as
one gap interval contains it, true (solid) otherwise. -/
def isSolidAtAngle (playerAngle worldAngle : ℝ) : Prop :=
  ∀ g ∈ gaps, ¬ inGapInterval (normAngle (worldAngle - playerAngle)) g

/-! ## Rotor rotation update (Player.update, game.js lines 848-889) -/

/-- Closed form of the angle-difference normalization loops in
Player.update (`while (d > π) d -= 2π; while (d < -π) d += 2π`):
the loops run in that order, the first leaves a value ≤ π (in (−π, π]
if it ran at all), the second then lifts a value < −π into [−π, π). -/
def normDiff (d : ℝ) : ℝ :=
  if d > π then d - 2 * π * ⌈(d - π) / (2 * π)⌉
  else if d < -π then d + 2 * π * ⌈(-π - d) / (2 * π)⌉
  else d

/-- Closed form of the final angle normalization loops in Player.update
(`while (a > 2π) a -= 2π; while (a < 0) a += 2π`).  Note the strict
`> 2π` in the first loop: a positive multiple of 2π is left at exactly
2π, so the exit range is the closed interval [0, 2π]. -/
def normUpdateAngle (x : ℝ) : ℝ :=
  if x > 2 * π then x - 2 * π * (⌈x / (2 * π)⌉ - 1)
  else if x < 0 then x - 2 * π * ⌊x / (2 * π)⌋
  else x

/-- The rotation state of Player: current angle and rotationSpeed.
Player.constructor starts at angle 0, rotationSpeed 0. -/
structure RotState where
  angle : ℝ
  rotationSpeed : ℝ

/-- Player.update (rotation part).  `touchAngle` is
`atan2(touch.y - this.y, touch.x - this.x)` when a primary touch is
present (so it lies in (−π, π]) and `none` otherwise.  With a touch the
rotationSpeed is set to
`min(|angleDiff| * rotationAcceleration, maxRotationSpeed)` signed by
the direction of the (normalized) difference, with
rotationAcceleration = 15 and maxRotationSpeed = 5; without a touch it
decays by friction ×0.9 and snaps to 0 below 0.1.  Then the angle is
integrated by `angle += rotationSpeed * deltaTime` and re-normalized. -/
def playerUpdateRot (st : RotState) (touchAngle : Option ℝ) (deltaTime : ℝ) :
    RotState :=
  let speed :=
    match touchAngle with
    | some target =>
        let diff := normDiff (target - st.angle)
        let dir : ℝ := if diff > 0 then 1 else -1
        min (|diff| * 15) 5 * dir
    | none =>
        let s := st.rotationSpeed * (9/10)
        if |s| < 1/10 then 0 else s
  { angle := normUpdateAngle (st.angle + speed * deltaTime)
    rotationSpeed := speed }

/-! ## Collision scan (GameEngine.checkCollisions, game.js lines
2378-2422, and Physics.getNearbyObjects, lines 1934-1960)

The scan is modelled as a function from the scanned projectile list to
the pair (dodge events in order, optional solid-hit event): the solid
branch calls `handleCollision` and breaks, the gap branch calls
`handleDodge` (which is a no-op on an already-dodged projectile) and
continues. -/

/-- The geometric and lifecycle fields of a Projectile that the
collision scan reads. -/
structure Proj where
  x : ℝ
  y : ℝ
  radius : ℝ
  active : Bool
  dodged : Bool
  spawnTime : ℝ

/-- The collision grace period of GameEngine.checkCollisions:
projectiles younger than 200 ms are skipped. -/
def gracePeriodMs : ℝ := 200

/-- The fields of the Player object that the collision scan and the
physics grid query read.  Its gap table is the fixed `gaps` list built
by Player.constructor. -/
structure PlayerObj where
  x : ℝ
  y : ℝ
  radius : ℝ
  angle : ℝ

/-- `Math.atan2(y, x)`: the argument of the point (x, y), in (−π, π]. -/
def atan2 (y x : ℝ) : ℝ := Complex.arg (x + y * Complex.I)

open Classical in
/-- The scan loop of GameEngine.checkCollisions over the chosen
projectile list: skip inactive projectiles and projectiles inside the
grace period; for a projectile within the collision radius
(`distance <= player.radius + projectile.radius`, distance Euclidean),
classify by `isSolidAtAngle(atan2(dy, dx))`: solid triggers
handleCollision and breaks the loop, gap triggers handleDodge — which
records a dodge only if the projectile is not already `dodged` — and
the loop continues.  Returns (dodge events in scan order, solid-hit
event if any). -/
def scanProjectiles (pl : PlayerObj) (now : ℝ) :
    List Proj → List Proj × Option Proj
  | [] => ([], none)
  | p :: rest =>
    if p.active = false then scanProjectiles pl now rest
    else if now - p.spawnTime < gracePeriodMs then scanProjectiles pl now rest
    else
      let dx := p.x - pl.x
      let dy := p.y - pl.y
      let distance := Real.sqrt (dx * dx + dy * dy)
      if distance ≤ pl.radius + p.radius then
        if isSolidAtAngle pl.angle (atan2 dy dx) then ([], some p)
        else if p.dodged then scanProjectiles pl now rest
        else
          let r := scanProjectiles pl now rest
          (p :: r.1, r.2)
      else scanProjectiles pl now rest

/-- The spatial-grid fields of the Physics object: cell size and the
grid Map from cell coordinates to the objects stored there (a key
absent from the Map reads as the empty list, matching
`this.grid.get(key) || []`). -/
structure PhysicsState where
  gridSize : ℝ
  grid : ℤ × ℤ → List Proj

/-- The inclusive integer range [lo, hi] iterated by the nested cell
loops of Physics.getNearbyObjects. -/
def cellRange (lo hi : ℤ) : List ℤ :=
  (List.range (hi + 1 - lo).toNat).map fun k => lo + k

open Classical in
/-- The `seen`-set accumulation of Physics.getNearbyObjects: objects
are appended in iteration order, each object only on its first
occurrence. -/
def dedupFirst (l : List Proj) : List Proj :=
  l.foldl (fun acc p => if p ∈ acc then acc else acc ++ [p]) []

open Classical in
/-- Physics.getNearbyObjects(player): computes the player's circle
bounding box (the player has a `radius` field), the grid cells it
overlaps, and collects the grid entries of those cells, deduplicated in
first-seen order.  The `obj !== object` guard excludes only the queried
player object itself, which is never among the stored projectiles. -/
def getNearbyObjects (ph : PhysicsState) (pl : PlayerObj) : List Proj :=
  let minCellX := ⌊(pl.x - pl.radius) / ph.gridSize⌋
  let maxCellX := ⌊(pl.x + pl.radius) / ph.gridSize⌋
  let minCellY := ⌊(pl.y - pl.radius) / ph.gridSize⌋
  let maxCellY := ⌊(pl.y + pl.radius) / ph.gridSize⌋
  dedupFirst <|
    (cellRange minCellX maxCellX).flatMap fun cx =>
      (cellRange minCellY maxCellY).flatMap fun cy => ph.grid (cx, cy)

/-- GameEngine.checkCollisions: filters the pool's active list by the
`active` flag; if more than 10 projectiles remain it scans
`physics.getNearbyObjects(player)` filtered by
`p !== this.player && p.active` (the player is not a projectile, so
that guard only drops inactive entries), otherwise it scans the
filtered active list directly. -/
def checkCollisions (ph : PhysicsState) (pl : PlayerObj) (now : ℝ)
    (poolActive : List Proj) : List Proj × Option Proj :=
  let activeProjectiles := poolActive.filter (·.active)
  let projectilesToCheck :=
    if activeProjectiles.length > 10 then
      (getNearbyObjects ph pl).filter (·.active)
    else activeProjectiles
  scanProjectiles pl now projectilesToCheck

/-- The Physics state owned by GameEngine: `new Physics()` sets
`gridSize = 200` and `grid = new Map()`, and `buildCollisionGrid` — the
only method that writes to the grid — has no call site anywhere in
game.js, so the grid Map is empty in every reachable engine state. -/
def enginePhysics : PhysicsState :=
  { gridSize := 200, grid := fun _ => [] }

/-! ### Spec-side classifiers (from the spec's §4.3 wording, for the
scan-order refinement theorem) -/

/-- Spec §4.3 step 1-2: a projectile is checked when active and past
the grace period. -/
def checkedNow (now : ℝ) (p : Proj) : Prop :=
  p.active = true ∧ ¬ (now - p.spawnTime < gracePeriodMs)

/-- Spec §4.3 step 2: in range when the Euclidean distance to the rotor
center is at most `rotorRadius + projectileRadius`. -/
def inCollisionRange (pl : PlayerObj) (p : Proj) : Prop :=
  Real.sqrt ((p.x - pl.x) * (p.x - pl.x) + (p.y - pl.y) * (p.y - pl.y)) ≤
    pl.radius + p.radius

/-- Spec §4.3 step 4: a projectile that would be processed as a solid
hit. -/
def solidHitCand (pl : PlayerObj) (now : ℝ) (p : Proj) : Prop :=
  checkedNow now p ∧ inCollisionRange pl p ∧
    isSolidAtAngle pl.angle (atan2 (p.y - pl.y) (p.x - pl.x))

/-- Spec §4.3 step 5: a projectile that would be processed as a dodge
(gap classification, not yet dodged). -/
def dodgeCand (pl : PlayerObj) (now : ℝ) (p : Proj) : Prop :=
  checkedNow now p ∧ inCollisionRange pl p ∧
    ¬ isSolidAtAngle pl.angle (atan2 (p.y - pl.y) (p.x - pl.x)) ∧
    p.dodged = false

open Classical in
/-- Modelled from the spec (§4.3 step 4): the solid hit processed in a
tick is the first solid candidate in scan order. -/
def specFirstHit (pl : PlayerObj) (now : ℝ) (ps : List Proj) : Option Proj :=
  ps.find? fun p => decide (solidHitCand pl now p)

open Classical in
/-- Modelled from the spec (§4.3 step 5): the dodges processed in a
tick are exactly the dodge candidates strictly before the first solid
candidate in scan order. -/
def specDodges (pl : PlayerObj) (now : ℝ) (ps : List Proj) : List Proj :=
  (ps.takeWhile fun p => !(decide (solidHitCand pl now p))).filter
    fun p => decide (dodgeCand pl now p)

end

/-! ## Theorems -/

/-- C5: Immediately after every dodge handler call (on a projectile not
already marked dodged), comboMultiplier equals
min(floor(combo/10)+1, 5) for the updated combo, for every prior combo
value in [0, 1000]. -/
theorem dodge_multiplier_invariant (s : ScoreState) (_hcombo : s.combo ≤ 1000) :
    (handleDodgeScore s false).comboMultiplier
      = min ((handleDodgeScore s false).combo / 10 + 1) 5 := by
  simp [handleDodgeScore, addScore, updateComboMultiplier, Nat.add_comm]

/-- Witness for dodge_multiplier_invariant at a concrete state. -/
theorem dodge_multiplier_invariant_witness :
    (initialScoreState .medium).combo ≤ 1000 ∧
      (handleDodgeScore (initialScoreState .medium) false).comboMultiplier
        = min ((handleDodgeScore (initialScoreState .medium) false).combo / 10 + 1) 5 :=
  ⟨by decide, dodge_multiplier_invariant (initialScoreState .medium) (by decide)⟩

/-- C6: Each processed dodge awards
floor(basePoints × comboMultiplier × difficultyBonus) points with
basePoints = 10 and the multiplier recomputed from the
already-incremented combo; starting from combo 0 on medium difficulty,
after ten consecutive dodges the multiplier is 2 and the 11th dodge
awards floor(10 × 2 × 1.1) = 22 points. -/
theorem dodge_scoring_points (s : ScoreState) :
    ((handleDodgeScore s false).score
        = s.score +
          ⌊(10 : ℚ) * ((min ((s.combo + 1) / 10 + 1) 5 : ℕ) : ℚ) *
            difficultyBonus s.difficulty⌋)
    ∧ ((fun t => handleDodgeScore t false)^[10]
          (initialScoreState .medium)).comboMultiplier = 2
    ∧ ((fun t => handleDodgeScore t false)^[11]
          (initialScoreState .medium)).score
        = ((fun t => handleDodgeScore t false)^[10]
            (initialScoreState .medium)).score + 22 := by
  refine ⟨?_, by decide, ?_⟩
  · simp [handleDodgeScore, addScore, updateComboMultiplier, Nat.add_comm]
  · norm_num [Function.iterate_succ_apply, handleDodgeScore, addScore,
      updateComboMultiplier, initialScoreState, difficultyBonus]

/-- C8: On every tick the deltaTime handed to update is at most 33 ms
(0.033 s); when the raw sample difference is below the cap it is used
unchanged, and a 500 ms stall sample is reduced to exactly 0.033 s. -/
theorem deltaTime_clamped (currentTime lastTime : ℚ) :
    gameLoopDeltaTime currentTime lastTime ≤ 33/1000
    ∧ (currentTime - lastTime ≤ 33 →
        gameLoopDeltaTime currentTime lastTime = (currentTime - lastTime) / 1000)
    ∧ gameLoopDeltaTime 500 0 = 33/1000 := by
  refine ⟨min_le_right _ _, fun h => min_eq_left (by linarith), ?_⟩
  norm_num [gameLoopDeltaTime]

/-- Witness for deltaTime_clamped at a concrete pair of clock samples. -/
theorem deltaTime_clamped_witness :
    ((10 : ℚ) - 0 ≤ 33) ∧ gameLoopDeltaTime 10 0 = (10 - 0) / 1000 :=
  ⟨by norm_num, (deltaTime_clamped 10 0).2.1 (by norm_num)⟩

/-- Acquiring preserves pool well-formedness. -/
lemma poolWF_acquire (st : PoolState) (hWF : PoolWF st) : PoolWF (acquire st).1 := by
  obtain ⟨h1, h2, h3, h4, h5⟩ := hWF
  cases hf : st.free with
  | nil =>
    refine ⟨?_, ?_, ?_, ?_, ?_⟩ <;> simp [acquire, hf]
    · intro i hi
      rcases hi with hi | rfl
      · exact Nat.lt_succ_of_lt (h2 i hi)
      · exact Nat.lt_succ_self _
    · intro i hlt
      rcases Nat.lt_succ_iff_lt_or_eq.mp hlt with hlt | rfl
      · rcases h3 i hlt with ⟨hfree, _⟩ | ⟨_, hact⟩
        · rw [hf] at hfree
          simp at hfree
        · exact Or.inl hact
      · exact Or.inr rfl
    · rw [List.nodup_append]
      refine ⟨h5, List.nodup_singleton _, ?_⟩
      intro a ha hb
      rw [List.mem_singleton] at hb
      subst hb
      exact absurd (h2 _ ha) (by omega)
  | cons id rest =>
    have hid : id ∈ st.free := by rw [hf]; exact List.mem_cons_self _ _
    have hidrest : id ∉ rest := by
      rw [hf] at h4
      exact (List.nodup_cons.mp h4).1
    have hidact : id ∉ st.act := by
      rcases h3 id (h1 id hid) with ⟨_, hna⟩ | ⟨hnf, _⟩
      · exact hna
      · exact absurd hid hnf
    refine ⟨?_, ?_, ?_, ?_, ?_⟩ <;> simp [acquire, hf]
    · intro i hi
      exact h1 i (by rw [hf]; exact List.mem_cons_of_mem _ hi)
    · intro i hi
      rcases hi with hi | rfl
      · exact h2 i hi
      · exact h1 _ hid
    · intro i hlt
      rcases h3 i hlt with ⟨hfree, hna⟩ | ⟨hnf, hact⟩
      · rw [hf] at hfree
        rcases List.mem_cons.mp hfree with rfl | hmem
        · exact Or.inr ⟨hidrest, Or.inr rfl⟩
        · exact Or.inl ⟨hmem, hna, fun h => hidrest (h ▸ hmem)⟩
      · refine Or.inr ⟨?_, Or.inl hact⟩
        intro hmem
        exact hnf (by rw [hf]; exact List.mem_cons_of_mem _ hmem)
    · rw [hf] at h4
      exact (List.nodup_cons.mp h4).2
    · rw [List.nodup_append]
      refine ⟨h5, List.nodup_singleton _, ?_⟩
      intro a ha hb
      rw [List.mem_singleton] at hb
      subst hb
      exact hidact ha

/-- Releasing preserves pool well-formedness. -/
lemma poolWF_release (st : PoolState) (i : ℕ) (hWF : PoolWF st) :
    PoolWF (release st i) := by
  obtain ⟨h1, h2, h3, h4, h5⟩ := hWF
  by_cases hmem : i ∈ st.act
  · have hinf : i ∉ st.free := by
      rcases h3 i (h2 i hmem) with ⟨_, hna⟩ | ⟨hnf, _⟩
      · exact absurd hmem hna
      · exact hnf
    refine ⟨?_, ?_, ?_, ?_, ?_⟩ <;> simp [release, hmem]
    · exact ⟨h2 i hmem, h1⟩
    · intro j hj
      exact h2 j (List.mem_of_mem_erase hj)
    · intro j hlt
      rcases h3 j hlt with ⟨hfree, hna⟩ | ⟨hnf, hact⟩
      · exact Or.inl ⟨Or.inr hfree, fun hj => hna (List.mem_of_mem_erase hj)⟩
      · by_cases hji : j = i
        · subst hji
          exact Or.inl ⟨Or.inl rfl, h5.not_mem_erase⟩
        · exact Or.inr ⟨⟨hji, hnf⟩, (List.mem_erase_of_ne hji).mpr hact⟩
    · exact ⟨hinf, h4⟩
    · exact h5.erase i
  · simpa [release, hmem] using ⟨h1, h2, h3, h4, h5⟩


/-- C7: Every pooled instance is in exactly one of the two collections
(well-formedness is preserved by acquire and release); acquire moves a
free instance to the active list, creating a fresh instance exactly
when the free list is empty; release moves an active instance back to
the free list and clears its active flag, and is a no-op on an
instance that is not in the active list; and on a pool initialized
with 50 instances the 51st acquire creates a new instance (the total
instance count goes from 50 to 51) rather than failing. -/
theorem pool_exactly_one_collection (st : PoolState) (i : ℕ) (hWF : PoolWF st) :
    PoolWF (acquire st).1
    ∧ (acquire st).2 ∈ (acquire st).1.act
    ∧ (st.free = [] →
        (acquire st).1.created = st.created + 1 ∧ (acquire st).2 = st.created)
    ∧ (st.free ≠ [] →
        (acquire st).2 ∈ st.free ∧ (acquire st).1.created = st.created)
    ∧ PoolWF (release st i)
    ∧ (i ∈ st.act →
        i ∈ (release st i).free ∧ (release st i).flag i = false
          ∧ i ∉ (release st i).act)
    ∧ (i ∉ st.act → release st i = st)
    ∧ ((fun t => (acquire t).1)^[50] (initPool 50)).free = []
    ∧ ((fun t => (acquire t).1)^[51] (initPool 50)).created = 51
    ∧ ((fun t => (acquire t).1)^[50] (initPool 50)).created = 50 := by
  refine ⟨poolWF_acquire st hWF, ?_, ?_, ?_, poolWF_release st i hWF, ?_, ?_,
    by decide, by decide, by decide⟩
  · cases hf : st.free with
    | nil => simp [acquire, hf]
    | cons id rest => simp [acquire, hf]
  · intro hf
    simp [acquire, hf]
  · intro hf
    cases hfc : st.free with
    | nil => exact absurd hfc hf
    | cons id rest => simp [acquire, hfc]
  · intro hmem
    refine ⟨?_, ?_, ?_⟩ <;> simp [release, hmem]
    exact hWF.2.2.2.2.not_mem_erase
  · intro hmem
    simp [release, hmem]

/-- Witness for pool_exactly_one_collection at a concrete small pool. -/
theorem pool_exactly_one_collection_witness :
    PoolWF (initPool 2)
    ∧ (PoolWF (acquire (initPool 2)).1
        ∧ (acquire (initPool 2)).2 ∈ (acquire (initPool 2)).1.act
        ∧ ((initPool 2).free = [] →
            (acquire (initPool 2)).1.created = (initPool 2).created + 1
              ∧ (acquire (initPool 2)).2 = (initPool 2).created)
        ∧ ((initPool 2).free ≠ [] →
            (acquire (initPool 2)).2 ∈ (initPool 2).free
              ∧ (acquire (initPool 2)).1.created = (initPool 2).created)
        ∧ PoolWF (release (initPool 2) 0)
        ∧ (0 ∈ (initPool 2).act →
            0 ∈ (release (initPool 2) 0).free
              ∧ (release (initPool 2) 0).flag 0 = false
              ∧ 0 ∉ (release (initPool 2) 0).act)
        ∧ (0 ∉ (initPool 2).act → release (initPool 2) 0 = initPool 2)
        ∧ ((fun t => (acquire t).1)^[50] (initPool 50)).free = []
        ∧ ((fun t => (acquire t).1)^[51] (initPool 50)).created = 51
        ∧ ((fun t => (acquire t).1)^[50] (initPool 50)).created = 50) :=
  ⟨by decide, pool_exactly_one_collection (initPool 2) 0 (by decide)⟩


open Real

/-! ### Helper lemmas for the angular geometry and the scan -/

/-- The isSolidAtAngle normalization loops leave a value already in
[0, 2π) unchanged. -/
lemma normAngle_eq_self {x : ℝ} (h0 : 0 ≤ x) (h2 : x < 2 * π) : normAngle x = x := by
  have hfl : ⌊x / (2 * π)⌋ = 0 := by
    rw [Int.floor_eq_zero_iff, Set.mem_Ico]
    constructor
    · positivity
    · exact (div_lt_one Real.two_pi_pos).mpr h2
  simp [normAngle, hfl]

/-- The gap list built by Player.constructor, written out: four gaps of
width π/4 starting at local angles 0, π/2, π, 3π/2. -/
lemma gaps_list :
    gaps = [(0, π/4), (π/2, 3*π/4), (π, 5*π/4), (3*π/2, 7*π/4)] := by
  simp [gaps, gapCount, gapSize, List.range_succ]
  repeat' constructor
  all_goals first | trivial | ring

/-- normAngle is invariant under shifting by whole turns. -/
lemma normAngle_sub_int (y : ℝ) (k : ℤ) : normAngle (y - 2*π*k) = normAngle y := by
  have h2pi := Real.two_pi_pos
  unfold normAngle
  rw [show (y - 2*π*k)/(2*π) = y/(2*π) - k by field_simp, Int.floor_sub_int]
  push_cast
  ring

/-- normAngle lands in [0, 2π), the exit range of the two
normalization loops in Player.isSolidAtAngle. -/
lemma normAngle_mem (x : ℝ) : 0 ≤ normAngle x ∧ normAngle x < 2*π := by
  have h2pi := Real.two_pi_pos
  have hfr : normAngle x = 2*π * Int.fract (x/(2*π)) := by
    unfold normAngle Int.fract
    field_simp
  rw [hfr]
  constructor
  · exact mul_nonneg h2pi.le (Int.fract_nonneg _)
  · have := mul_lt_mul_of_pos_left (Int.fract_lt_one (x/(2*π))) h2pi
    simpa using this

/-- Normalizing an operand first does not change the normalized sum. -/
lemma normAngle_idem_add (x c : ℝ) :
    normAngle (normAngle x + c) = normAngle (x + c) := by
  have hx : normAngle x + c = (x + c) - 2*π*(⌊x/(2*π)⌋ : ℤ) := by
    unfold normAngle
    push_cast
    ring
  rw [hx, normAngle_sub_int]

/-- For a gap whose end does not exceed 2π the wrap-around branch of
the gap test is dead and the test is plain interval membership. -/
lemma inGapInterval_nowrap {r s e : ℝ} (he : ¬ e > 2*π) :
    inGapInterval r (s, e) ↔ (s ≤ r ∧ r < e) := by
  unfold inGapInterval
  simp [he]

/-- Player.isSolidAtAngle for the constructed gap table, unfolded to
the four interval tests (no gap end exceeds 2π, so no wrap-around). -/
lemma isSolid_iff (a w : ℝ) :
    isSolidAtAngle a w ↔
      (¬ (0 ≤ normAngle (w - a) ∧ normAngle (w - a) < π/4)
       ∧ ¬ (π/2 ≤ normAngle (w - a) ∧ normAngle (w - a) < 3*π/4)
       ∧ ¬ (π ≤ normAngle (w - a) ∧ normAngle (w - a) < 5*π/4)
       ∧ ¬ (3*π/2 ≤ normAngle (w - a) ∧ normAngle (w - a) < 7*π/4)) := by
  have hπ := pi_pos
  unfold isSolidAtAngle
  rw [gaps_list]
  simp only [List.forall_mem_cons, List.forall_mem_nil, and_true]
  rw [inGapInterval_nowrap (by push_neg; linarith),
    inGapInterval_nowrap (by push_neg; linarith),
    inGapInterval_nowrap (by push_neg; linarith),
    inGapInterval_nowrap (by push_neg; linarith)]
  simp only [List.not_mem_nil, false_implies, implies_true, and_true]

/-- The world angle π/8 with the rotor at angle 0 lies in the first gap
[0, π/4), so Player.isSolidAtAngle classifies it as a gap. -/
lemma not_solid_pi_div_eight : ¬ isSolidAtAngle 0 (π/8) := by
  intro h
  have hmem : ((0 : ℝ), π/4) ∈ gaps := by rw [gaps_list]; simp
  apply h _ hmem
  have hn : normAngle (π/8 - 0) = π/8 := by
    rw [sub_zero]
    exact normAngle_eq_self (by positivity) (by linarith [pi_pos])
  rw [hn]
  exact Or.inr ⟨not_lt.mpr (by linarith [pi_pos]), by positivity, by linarith [pi_pos]⟩

/-- Math.atan2 recovers the direction angle of a point at positive
distance d along direction θ, for θ in atan2 range (−π, π]. -/
lemma atan2_on_ray {θ d : ℝ} (hd : 0 < d) (hθ : θ ∈ Set.Ioc (-π) π) :
    atan2 (d * Real.sin θ) (d * Real.cos θ) = θ := by
  unfold atan2
  have hz : ((d * Real.cos θ : ℝ) : ℂ) + (d * Real.sin θ : ℝ) * Complex.I
      = (d : ℝ) * ((Real.cos θ : ℝ) + (Real.sin θ : ℝ) * Complex.I) := by
    push_cast
    ring
  rw [hz, Complex.arg_real_mul _ hd, Complex.ofReal_cos, Complex.ofReal_sin,
    Complex.arg_cos_add_sin_mul_I hθ]

/-- Flat-mapping a constant empty list yields the empty list. -/
lemma flatMap_const_nil {α β : Type} (l : List α) :
    (l.flatMap fun _ => ([] : List β)) = [] := by
  induction l with
  | nil => rfl
  | cons a l ih => simpa using ih

/-- With the engine Physics state — whose grid Map is never populated,
since buildCollisionGrid has no call site — getNearbyObjects returns
the empty list for every query. -/
lemma getNearbyObjects_empty_grid (pl : PlayerObj) :
    getNearbyObjects enginePhysics pl = [] := by
  simp [getNearbyObjects, enginePhysics, dedupFirst, flatMap_const_nil]

/-- A list of identical in-range, past-grace, gap-classified, not yet
dodged projectiles is scanned end to end and every entry is processed
as a dodge. -/
lemma scan_replicate_all_dodge {pl : PlayerObj} {now : ℝ} {p : Proj}
    (ha : p.active = true) (hg : ¬ (now - p.spawnTime < gracePeriodMs))
    (hr : Real.sqrt ((p.x - pl.x) * (p.x - pl.x) + (p.y - pl.y) * (p.y - pl.y))
      ≤ pl.radius + p.radius)
    (hs : ¬ isSolidAtAngle pl.angle (atan2 (p.y - pl.y) (p.x - pl.x)))
    (hd : p.dodged = false) :
    ∀ n, scanProjectiles pl now (List.replicate n p) = (List.replicate n p, none) := by
  intro n
  induction n with
  | zero => simp [scanProjectiles]
  | succ k ih =>
    rw [List.replicate_succ]
    simp only [scanProjectiles]
    rw [if_neg (by simp [ha]), if_neg hg, if_pos hr, if_neg hs, if_neg (by simp [hd]), ih]

/-- The angle-difference normalization loops leave a value already in
[−π, π] unchanged. -/
lemma normDiff_id {d : ℝ} (h1 : ¬ d > π) (h2 : ¬ d < -π) : normDiff d = d := by
  unfold normDiff
  rw [if_neg h1, if_neg h2]

/-- The final angle normalization loops of Player.update leave a value
already in [0, 2π] unchanged. -/
lemma normUpdateAngle_id {x : ℝ} (h1 : ¬ x > 2*π) (h2 : ¬ x < 0) :
    normUpdateAngle x = x := by
  unfold normUpdateAngle
  rw [if_neg h1, if_neg h2]

/-- The final angle normalization loops of Player.update lift a value
in [−2π, 0) by one turn. -/
lemma normUpdateAngle_neg {x : ℝ} (h1 : -(2*π) ≤ x) (h2 : x < 0) :
    normUpdateAngle x = x + 2*π := by
  have h2pi := Real.two_pi_pos
  unfold normUpdateAngle
  rw [if_neg (by linarith), if_pos h2]
  have hfl : ⌊x/(2*π)⌋ = -1 := by
    rw [Int.floor_eq_iff]
    push_cast
    constructor
    · rw [le_div_iff h2pi]
      linarith
    · rw [div_lt_iff h2pi]
      linarith
  rw [hfl]
  push_cast
  ring

/-- The final angle normalization of Player.update always lands in the
closed interval [0, 2π]: the first loop uses the strict test
`angle > 2π`, so exactly 2π is a possible result. -/
lemma normUpdateAngle_mem (x : ℝ) :
    0 ≤ normUpdateAngle x ∧ normUpdateAngle x ≤ 2*π := by
  have h2pi := Real.two_pi_pos
  unfold normUpdateAngle
  split_ifs with h1 h2
  · have hle : x/(2*π) ≤ (⌈x/(2*π)⌉ : ℝ) := Int.le_ceil _
    have hlt : (⌈x/(2*π)⌉ : ℝ) < x/(2*π) + 1 := Int.ceil_lt_add_one _
    have hx : 2*π * (x/(2*π)) = x := by
      field_simp
    push_cast
    constructor <;> nlinarith
  · have hle : (⌊x/(2*π)⌋ : ℝ) ≤ x/(2*π) := Int.floor_le _
    have hlt : x/(2*π) < (⌊x/(2*π)⌋ : ℝ) + 1 := Int.lt_floor_add_one _
    have hx : 2*π * (x/(2*π)) = x := by
      field_simp
    constructor <;> nlinarith
  · push_neg at h1 h2
    exact ⟨h2, h1⟩

/-- One tick from the constructor state: touch at target angle −2/5
with deltaTime 0.02 s drives the rotor to angle 2π − 1/10 at full
negative speed. -/
lemma playerUpdateRot_step1 :
    playerUpdateRot ⟨0, 0⟩ (some (-2/5)) (1/50) = ⟨2*π - 1/10, -5⟩ := by
  have hπ3 := Real.pi_gt_three
  have hnd : normDiff ((-2/5 : ℝ) - 0) = -2/5 := by
    rw [show ((-2/5 : ℝ) - 0) = -2/5 by norm_num]
    exact normDiff_id (by push_neg; linarith) (by push_neg; linarith)
  simp only [playerUpdateRot]
  rw [hnd]
  rw [if_neg (by norm_num), abs_of_neg (by norm_num : (-2/5 : ℝ) < 0)]
  rw [show (-(-2/5 : ℝ)) * 15 = 6 by norm_num, min_eq_right (by norm_num : (5:ℝ) ≤ 6)]
  congr 1
  · rw [show ((0:ℝ) + 5 * -1 * (1/50)) = -(1/10) by norm_num]
    rw [normUpdateAngle_neg (by linarith) (by norm_num)]
    ring
  · norm_num

/-- A second tick: touch at target angle 1/2 with deltaTime 0.02 s
moves the rotor from 2π − 1/10 by +1/10, landing exactly on 2π, which
the normalization loops do not reduce. -/
lemma playerUpdateRot_step2 :
    playerUpdateRot ⟨2*π - 1/10, -5⟩ (some (1/2)) (1/50) = ⟨2*π, 5⟩ := by
  have hπ3 := Real.pi_gt_three
  have h2pi := Real.two_pi_pos
  have hnd : normDiff ((1/2 : ℝ) - (2*π - 1/10)) = 3/5 := by
    rw [show ((1/2 : ℝ) - (2*π - 1/10)) = 3/5 - 2*π by ring]
    unfold normDiff
    rw [if_neg (by push_neg; linarith), if_pos (by linarith)]
    have hce : ⌈(-π - (3/5 - 2*π))/(2*π)⌉ = 1 := by
      rw [show (-π - (3/5 - 2*π) : ℝ) = π - 3/5 by ring, Int.ceil_eq_iff]
      push_cast
      constructor
      · rw [lt_div_iff h2pi]
        linarith
      · rw [div_le_iff h2pi]
        linarith
    rw [hce]
    push_cast
    ring
  simp only [playerUpdateRot]
  rw [hnd]
  rw [if_pos (by norm_num), abs_of_pos (by norm_num : (0:ℝ) < 3/5)]
  rw [show ((3/5 : ℝ)) * 15 = 9 by norm_num, min_eq_right (by norm_num : (5:ℝ) ≤ 9)]
  congr 1
  · rw [show ((2*π - 1/10 : ℝ) + 5 * 1 * (1/50)) = 2*π by ring]
    exact normUpdateAngle_id (lt_irrefl _) (by push_neg; linarith)
  · norm_num


/-! ### Claim theorems over the geometry and the scan -/

/-- C1 (refuted by the code; the spec states the intent): with more
than 10 active projectiles the scan dispatches to
Physics.getNearbyObjects, whose grid Map is never populated, so no
projectile is classified at all — here 11 identical active, past-grace,
in-range projectiles produce no hit and no dodge, while the same
projectile list truncated to 10 entries is fully processed (10
dodges). -/
theorem overfull_tick_scans_nothing :
    (¬ ((1000 : ℝ) - (0 : ℝ) < gracePeriodMs))
    ∧ inCollisionRange ⟨0, 0, 30, 0⟩ ⟨10, 0, 12, true, false, 0⟩
    ∧ (List.replicate 11 (⟨10, 0, 12, true, false, 0⟩ : Proj)).length > 10
    ∧ checkCollisions enginePhysics ⟨0, 0, 30, 0⟩ 1000
        (List.replicate 11 ⟨10, 0, 12, true, false, 0⟩) = ([], none)
    ∧ checkCollisions enginePhysics ⟨0, 0, 30, 0⟩ 1000
        (List.replicate 10 ⟨10, 0, 12, true, false, 0⟩)
      = (List.replicate 10 ⟨10, 0, 12, true, false, 0⟩, none) := by
  have hdist : Real.sqrt (((10 : ℝ) - 0) * ((10 : ℝ) - 0) + ((0 : ℝ) - 0) * ((0 : ℝ) - 0))
      = 10 := by
    rw [show ((10 : ℝ) - 0) * ((10 : ℝ) - 0) + ((0 : ℝ) - 0) * ((0 : ℝ) - 0)
      = 10 ^ 2 by norm_num]
    exact Real.sqrt_sq (by norm_num)
  have hatan : atan2 ((0 : ℝ) - 0) ((10 : ℝ) - 0) = 0 := by
    rw [sub_zero, sub_zero]
    unfold atan2
    simp
  have hsolid : ¬ isSolidAtAngle 0 0 := by
    intro h
    have hmem : ((0 : ℝ), π/4) ∈ gaps := by rw [gaps_list]; simp
    apply h _ hmem
    have hn : normAngle (0 - 0) = 0 := by
      rw [sub_zero]
      exact normAngle_eq_self le_rfl Real.two_pi_pos
    rw [hn]
    exact Or.inr ⟨not_lt.mpr (by linarith [pi_pos]), le_rfl, by positivity⟩
  refine ⟨by norm_num [gracePeriodMs], ?_, by simp, ?_, ?_⟩
  · unfold inCollisionRange
    rw [hdist]
    norm_num
  · unfold checkCollisions
    rw [getNearbyObjects_empty_grid]
    simp [scanProjectiles]
  · unfold checkCollisions
    have hlen : ((List.replicate 10 (⟨10, 0, 12, true, false, 0⟩ : Proj)).filter
        (fun p => p.active)).length = 10 := by simp
    rw [List.filter_replicate]
    simp only [if_pos rfl]
    rw [if_neg (by simp)]
    exact scan_replicate_all_dodge rfl (by norm_num [gracePeriodMs])
      (by rw [hdist]; norm_num) (by rw [hatan]; exact hsolid) rfl 10

/-- C2 amended: with the rotor at angle 0 and the constructed gap
pattern, a projectile arriving at world angle π/8 is classified as in a
gap (isSolidAtAngle returns false), so the scan processes it as a
dodge, not as a session-ending hit. -/
theorem pi_eighth_projectile_dodges :
    ¬ isSolidAtAngle 0 (π/8)
    ∧ scanProjectiles ⟨0, 0, 30, 0⟩ 1000
        [⟨40 * Real.cos (π/8), 40 * Real.sin (π/8), 12, true, false, 0⟩]
      = ([⟨40 * Real.cos (π/8), 40 * Real.sin (π/8), 12, true, false, 0⟩], none) := by
  refine ⟨not_solid_pi_div_eight, ?_⟩
  have hdist : Real.sqrt ((40 * Real.cos (π/8) - 0) * (40 * Real.cos (π/8) - 0)
      + (40 * Real.sin (π/8) - 0) * (40 * Real.sin (π/8) - 0)) = 40 := by
    rw [show (40 * Real.cos (π/8) - 0) * (40 * Real.cos (π/8) - 0)
        + (40 * Real.sin (π/8) - 0) * (40 * Real.sin (π/8) - 0)
        = 1600 * ((Real.sin (π/8))^2 + (Real.cos (π/8))^2) by ring,
      Real.sin_sq_add_cos_sq]
    rw [show (1600 : ℝ) * 1 = 40^2 by norm_num]
    exact Real.sqrt_sq (by norm_num)
  have hatan : atan2 (40 * Real.sin (π/8) - 0) (40 * Real.cos (π/8) - 0) = π/8 := by
    rw [sub_zero, sub_zero]
    exact atan2_on_ray (by norm_num) ⟨by linarith [pi_pos], by linarith [pi_pos]⟩
  simp only [scanProjectiles]
  rw [if_neg (by simp), if_neg (by norm_num [gracePeriodMs]), hdist]
  rw [if_pos (by norm_num), hatan, if_neg not_solid_pi_div_eight, if_neg (by simp)]

/-- C3: a projectile whose spawn timestamp is within 200 ms of the
current clock sample triggers neither the solid-hit handler nor the
dodge handler in the collision scan, even if it is geometrically in
range. -/
theorem grace_period_no_events (pl : PlayerObj) (now : ℝ) (ps : List Proj)
    (p : Proj) (_hp : p ∈ ps) (hgrace : now - p.spawnTime < gracePeriodMs) :
    p ∉ (scanProjectiles pl now ps).1 ∧ (scanProjectiles pl now ps).2 ≠ some p := by
  clear _hp
  induction ps with
  | nil => simp [scanProjectiles]
  | cons q rest ih =>
    have hqp : ∀ h2 : ¬ (now - q.spawnTime < gracePeriodMs), q ≠ p := by
      intro h2 h
      rw [h] at h2
      exact h2 hgrace
    simp only [scanProjectiles]
    split_ifs with h1 h2 h3 h4 h5
    · exact ih
    · exact ih
    · simpa using fun h => (hqp h2) h
    · exact ih
    · refine ⟨?_, ih.2⟩
      simp only [List.mem_cons, not_or]
      exact ⟨fun h => (hqp h2) h.symm, ih.1⟩
    · exact ih

/-- C4: within one collision-scan tick, the processed solid hit is
exactly the first solid candidate in scan order (at most one per tick,
after which scanning stops), and the processed dodges are exactly the
dodge classifications encountered strictly before it. -/
theorem scan_first_hit_prior_dodges (pl : PlayerObj) (now : ℝ) (ps : List Proj) :
    scanProjectiles pl now ps = (specDodges pl now ps, specFirstHit pl now ps) := by
  classical
  induction ps with
  | nil => simp [scanProjectiles, specDodges, specFirstHit]
  | cons q rest ih =>
    simp only [scanProjectiles]
    split_ifs with h1 h2 h3 h4 h5
    · have hs : ¬ solidHitCand pl now q := by
        simp [solidHitCand, checkedNow, h1]
      have hd : ¬ dodgeCand pl now q := by
        simp [dodgeCand, checkedNow, h1]
      simp [specFirstHit, specDodges, List.find?_cons, List.takeWhile_cons,
        List.filter_cons, hs, hd]
      exact ih
    · have hs : ¬ solidHitCand pl now q := by
        simp [solidHitCand, checkedNow, h2]
      have hd : ¬ dodgeCand pl now q := by
        simp [dodgeCand, checkedNow, h2]
      simp [specFirstHit, specDodges, List.find?_cons, List.takeWhile_cons,
        List.filter_cons, hs, hd]
      exact ih
    · have ha : q.active = true := by simpa using h1
      have hs : solidHitCand pl now q := ⟨⟨ha, h2⟩, h3, h4⟩
      simp [specFirstHit, specDodges, List.find?_cons, List.takeWhile_cons,
        List.filter_cons, hs]
    · have hs : ¬ solidHitCand pl now q := by
        simp [solidHitCand, checkedNow, h4]
      have hd : ¬ dodgeCand pl now q := by
        simp [dodgeCand, checkedNow, h5]
      simp [specFirstHit, specDodges, List.find?_cons, List.takeWhile_cons,
        List.filter_cons, hs, hd]
      exact ih
    · have ha : q.active = true := by simpa using h1
      have hdg : q.dodged = false := by simpa using h5
      have hs : ¬ solidHitCand pl now q := by
        simp [solidHitCand, checkedNow, h4]
      have hd : dodgeCand pl now q := ⟨⟨ha, h2⟩, h3, h4, hdg⟩
      simp [specFirstHit, specDodges, List.find?_cons, List.takeWhile_cons,
        List.filter_cons, hs, hd, ih]
    · have hs : ¬ solidHitCand pl now q := by
        simp [solidHitCand, checkedNow, inCollisionRange, h3]
      have hd : ¬ dodgeCand pl now q := by
        simp [dodgeCand, checkedNow, inCollisionRange, h3]
      simp [specFirstHit, specDodges, List.find?_cons, List.takeWhile_cons,
        List.filter_cons, hs, hd]
      exact ih


open Real

/-- C9 counterexample: from the constructor state (angle 0, speed 0),
two Player.update ticks with touch input and deltaTime 0.02 s (within
the 33 ms clamp) leave the rotor angle at exactly 2π, which is not in
the half-open interval [0, 2π). -/
theorem player_update_angle_reaches_two_pi :
    (playerUpdateRot (playerUpdateRot ⟨0, 0⟩ (some (-2/5)) (1/50))
        (some (1/2)) (1/50)).angle = 2*π
    ∧ ¬ ((playerUpdateRot (playerUpdateRot ⟨0, 0⟩ (some (-2/5)) (1/50))
        (some (1/2)) (1/50)).angle < 2*π) := by
  rw [playerUpdateRot_step1, playerUpdateRot_step2]
  exact ⟨rfl, lt_irrefl _⟩

/-- C9 amended: after every Player rotation update, from any state and
input, the rotor angle lies in the closed interval [0, 2π]. -/
theorem player_update_angle_in_closed_interval (st : RotState)
    (touchAngle : Option ℝ) (dt : ℝ) :
    0 ≤ (playerUpdateRot st touchAngle dt).angle
    ∧ (playerUpdateRot st touchAngle dt).angle ≤ 2*π := by
  cases touchAngle <;> exact normUpdateAngle_mem _

/-- C10: for the constructed Player gap pattern, isSolidAtAngle is
invariant under quarter-turn offsets of the world angle, for every
rotor angle. -/
theorem isSolid_quarter_turn (a θ : ℝ) :
    isSolidAtAngle a (θ + π/2) ↔ isSolidAtAngle a θ := by
  have hπ := pi_pos
  obtain ⟨hr0, hr2⟩ := normAngle_mem (θ - a)
  set r := normAngle (θ - a) with hrdef
  have hkey : normAngle (θ + π/2 - a) = normAngle (r + π/2) := by
    rw [show θ + π/2 - a = (θ - a) + π/2 by ring, hrdef]
    exact (normAngle_idem_add (θ - a) (π/2)).symm
  rw [isSolid_iff, isSolid_iff, hkey, ← hrdef]
  by_cases hsplit : r + π/2 < 2*π
  · rw [normAngle_eq_self (by linarith) hsplit]
    constructor
    · rintro ⟨g1, g2, g3, g4⟩
      refine ⟨?_, ?_, ?_, ?_⟩ <;> rintro ⟨hc1, hc2⟩
      · exact g2 ⟨by linarith, by linarith⟩
      · exact g3 ⟨by linarith, by linarith⟩
      · exact g4 ⟨by linarith, by linarith⟩
      · linarith
    · rintro ⟨g1, g2, g3, g4⟩
      refine ⟨?_, ?_, ?_, ?_⟩ <;> rintro ⟨hc1, hc2⟩
      · linarith
      · exact g1 ⟨by linarith, by linarith⟩
      · exact g2 ⟨by linarith, by linarith⟩
      · exact g3 ⟨by linarith, by linarith⟩
  · push_neg at hsplit
    have hr' : normAngle (r + π/2) = r - 3*π/2 := by
      rw [← normAngle_sub_int (r + π/2) 1,
        show r + π/2 - 2*π*((1:ℤ):ℝ) = r - 3*π/2 by push_cast; ring]
      exact normAngle_eq_self (by linarith) (by linarith)
    rw [hr']
    constructor
    · rintro ⟨g1, g2, g3, g4⟩
      refine ⟨?_, ?_, ?_, ?_⟩ <;> rintro ⟨hc1, hc2⟩
      · linarith
      · linarith
      · linarith
      · exact g1 ⟨by linarith, by linarith⟩
    · rintro ⟨g1, g2, g3, g4⟩
      refine ⟨?_, ?_, ?_, ?_⟩ <;> rintro ⟨hc1, hc2⟩
      · exact g4 ⟨by linarith, by linarith⟩
      · linarith
      · linarith
      · linarith


/-- C2 counterexample: isSolidAtAngle(π/8) with the rotor at angle 0
returns false (the angle lies in the first gap), refuting the claimed
solid classification. -/
theorem pi_eighth_not_solid : ¬ isSolidAtAngle 0 (π/8) :=
  not_solid_pi_div_eight

/-- Witness for grace_period_no_events at a concrete young projectile. -/
theorem grace_period_no_events_witness :
    ((⟨10, 0, 12, true, false, 0⟩ : Proj) ∈
        [(⟨10, 0, 12, true, false, 0⟩ : Proj)]
      ∧ (100 : ℝ) - (⟨10, 0, 12, true, false, 0⟩ : Proj).spawnTime
          < gracePeriodMs)
    ∧ ((⟨10, 0, 12, true, false, 0⟩ : Proj) ∉
        (scanProjectiles ⟨0, 0, 30, 0⟩ 100 [⟨10, 0, 12, true, false, 0⟩]).1
      ∧ (scanProjectiles ⟨0, 0, 30, 0⟩ 100 [⟨10, 0, 12, true, false, 0⟩]).2
          ≠ some ⟨10, 0, 12, true, false, 0⟩) :=
  ⟨⟨by simp, by norm_num [gracePeriodMs]⟩,
    grace_period_no_events ⟨0, 0, 30, 0⟩ 100 [⟨10, 0, 12, true, false, 0⟩]
      ⟨10, 0, 12, true, false, 0⟩ (by simp)
      (by norm_num [gracePeriodMs])⟩

end SpinEscape
